import Mathlib

/-!
Shallow embedding of the Forecast Simulation Engine of `src/app.py` (a Dash
dashboard producing PM2.5 / PM10 forecasts), together with theorems checking
the natural-language specification against it.

Embedding conventions:
* Python floats are modelled as `ℚ` where the code uses only field
  operations and absolute values (rolling statistics, diurnal curve), and as
  `ℝ` where the code calls `np.sin` (the 7-day loop).
* `dict.get(name, 0)` lookups are modelled as functions `String → Option _`
  with `Option.getD 0`.
* `None` inputs of the Dash callbacks are `Option` values.
* Python exceptions are modelled with `Except String`: a function returning
  `Except.error` models an uncaught exception propagating out of the
  callback; a `try/except` block is an explicit `match` on the `Except`.
* `datetime` values are represented by the fields the engine reads from
  them: the weekday of the start date (`Fin 7`, Python convention
  Monday = 0 … Sunday = 6, so `weekday(startDate + i) = (w0 + i) % 7`) and
  opaque day-of-month / month functions of the step index.
* `round(x, 2)` is modelled as `round (100 * x) / 100` on `ℝ`.
-/

/-- Feature-vector assembly shared by both tracks
(`src/app.py` lines 947 and 1253):
`pd.DataFrame({name: [feature_values.get(name, 0)] for name in expected_features})`.
The semantic value map (a Python dict whose keys include all accepted alias
spellings of a concept) is modelled as a function `String → Option α`. -/
def buildFeatureVector {α : Type} [Zero α] (schema : List String)
    (values : String → Option α) : List α :=
  schema.map fun n => (values n).getD 0

/-- `update_moving_average` (`src/app.py` lines 878-882): displays
`np.mean([pm25_1d, pm25_2d, pm25_3d])` when all three inputs are present and
`"0.00"` otherwise.  The numeric content of the displayed string. -/
def update_moving_average (pm25_1d pm25_2d pm25_3d : Option ℚ) : ℚ :=
  match pm25_1d, pm25_2d, pm25_3d with
  | some a, some b, some c => (a + b + c) / 3
  | _, _, _ => 0

/-- `update_pm10_averages` (`src/app.py` lines 1174-1190).  When all five lag
inputs are present it returns the 6-hour rolling mean of the first four
values, the 24-hour rolling mean of all five, and `np.average` with weights
`[0.4, 0.25, 0.2, 0.1, 0.05]` (which divides by the weight sum); when any
input is `None` it returns `(0, 0, 0)` (displayed as `"0.00"`). -/
def update_pm10_averages (current lag1 lag3 lag6 lag24 : Option ℚ) :
    ℚ × ℚ × ℚ :=
  match current, lag1, lag3, lag6, lag24 with
  | some c, some l1, some l3, some l6, some l24 =>
    let roll_mean_6 := (c + l1 + l3 + l6) / 4
    let roll_mean_24 := (c + l1 + l3 + l6 + l24) / 5
    let ewm_12 := (0.4 * c + 0.25 * l1 + 0.2 * l3 + 0.1 * l6 + 0.05 * l24) /
      (0.4 + 0.25 + 0.2 + 0.1 + 0.05)
    (roll_mean_6, roll_mean_24, ewm_12)
  | _, _, _, _, _ => (0, 0, 0)

/-- Diurnal band modifier (`src/app.py` lines 1341-1364): the if/elif chain
on `current_hour` producing the additive modifier applied to `base_value`.
`hour` is already reduced mod 24, so the Python guard `0 <= current_hour`
of the night band is automatic for `ℕ`. -/
def bandModifier (hour : ℕ) (baseValue : ℚ) : ℚ :=
  if 6 ≤ hour ∧ hour ≤ 9 then
    baseValue * (0.15 * (1 - |(hour : ℚ) - 7.5| / 1.5))
  else if 13 ≤ hour ∧ hour ≤ 16 then
    -(baseValue * (0.10 * (1 - |(hour : ℚ) - 14.5| / 1.5)))
  else if 18 ≤ hour ∧ hour ≤ 21 then
    baseValue * (0.12 * (1 - |(hour : ℚ) - 19.5| / 1.5))
  else if hour ≤ 5 then
    -(baseValue * (0.20 * (1 - |(hour : ℚ) - 3| / 3)))
  else 0

/-- One point of the diurnal pattern (`src/app.py` lines 1334-1368): linear
interpolation from `currentValue` to `predictedValue` over 24 hours plus the
band modifier at the absolute hour `(startHour + h) % 24`. -/
def diurnalValue (currentValue predictedValue : ℚ) (startHour h : ℕ) : ℚ :=
  let currentHour := (startHour + h) % 24
  let baseValue := currentValue + (predictedValue - currentValue) * ((h : ℚ) / 24)
  baseValue + bandModifier currentHour baseValue

/-- The 25-point diurnal curve, offsets `h = 0 .. 24`
(`src/app.py` loop `for h in range(25)` at line 1334). -/
def diurnalCurve (currentValue predictedValue : ℚ) (startHour : ℕ) : List ℚ :=
  (List.range 25).map (diurnalValue currentValue predictedValue startHour)

/-- Outcome of the PM10 callback as seen by the user: a rendered forecast, a
caught "Prediction Error" message, the "Model Not Loaded" message, or no
update. -/
inductive Pm10Outcome where
  | forecast : List ℚ → Pm10Outcome
  | predictionError : String → Pm10Outcome
  | modelNotLoaded : Pm10Outcome
  | noUpdate : Pm10Outcome
  deriving DecidableEq

/-- Body of the PM10 `try:` block (`src/app.py` lines 1210-1535): assemble
the feature vector (the expected schema when known, a fallback list
otherwise), call `pm10_model.predict`, and build the 25-point diurnal curve.
The fallible predictor returns `Except.error` when `predict` raises. -/
def pm10RunBody (modelF : List ℚ → Except String ℚ) (expected : List String)
    (values : String → Option ℚ) (fallback : List ℚ)
    (current : ℚ) (startHour : ℕ) : Except String (List ℚ) := do
  let feats := if expected ≠ [] then buildFeatureVector expected values else fallback
  let prediction ← modelF feats
  pure (diurnalCurve current prediction startHour)

/-- `update_pm10_prediction` callback (`src/app.py` lines 1207-1580): guarded
by `n_clicks > 0 and pm10_model_loaded`; the whole body sits inside
`try/except Exception as e`, the handler returning a user-visible
"Prediction Error" display built from `str(e)`. -/
def update_pm10_prediction (nClicks : ℕ) (modelLoaded : Bool)
    (modelF : List ℚ → Except String ℚ) (expected : List String)
    (values : String → Option ℚ) (fallback : List ℚ)
    (current : ℚ) (startHour : ℕ) : Pm10Outcome :=
  if 0 < nClicks ∧ modelLoaded then
    match pm10RunBody modelF expected values fallback current startHour with
    | Except.ok curve => Pm10Outcome.forecast curve
    | Except.error e =>
      Pm10Outcome.predictionError
        ("An error occurred while making the prediction: " ++ e)
  else if 0 < nClicks then Pm10Outcome.modelNotLoaded
  else Pm10Outcome.noUpdate

/-- `round(x, 2)` of the 7-day loop (`src/app.py` line 984), modelled as
rounding `100 * x` to the nearest integer. -/
noncomputable def round2 (x : ℝ) : ℝ := (round (100 * x) : ℤ) / 100

/-- Weekend adjustment (`src/app.py` lines 967-971): `day_of_week` is the
Python `datetime.weekday()` index (Monday = 0 … Sunday = 6). -/
noncomputable def weekdayFactor (dayOfWeek : ℕ) : ℝ :=
  if dayOfWeek = 5 then 0.9 else if dayOfWeek = 6 then 0.85 else 1

/-- Pseudo-weather 3-day cycle (`src/app.py` lines 974-975):
`weather_phase = (day_offset % 3) / 3.0`,
`weather_factor = 1.0 + 0.08 * np.sin(2 * np.pi * weather_phase)`. -/
noncomputable def weatherFactor (dayOffset : ℕ) : ℝ :=
  1 + 0.08 * Real.sin (2 * Real.pi * (((dayOffset % 3 : ℕ) : ℝ) / 3))

/-- Bounded random perturbation (`src/app.py` line 978):
`1.0 + 0.03 * (np.random.random() - 0.5)`, with the uniform draw `u`
supplied explicitly. -/
noncomputable def noiseFactor (u : ℝ) : ℝ := 1 + 0.03 * (u - 0.5)

/-- The three-component mean `np.mean([a, b, c])`. -/
noncomputable def mean3 (a b c : ℝ) : ℝ := (a + b + c) / 3

/-- Inputs of the 7-day forecast run (`update_7day_prediction` states):
humidity and temperature, the start date (represented by its weekday `w0`
and its calendar day/month fields as functions of the day offset), the three
PM2.5 lag readings, and the model's expected feature schema. -/
structure SevenDayInputs where
  humidity : ℝ
  temperature : ℝ
  w0 : Fin 7
  dayOf : ℕ → ℕ
  monthOf : ℕ → ℕ
  lag1 : ℝ
  lag2 : ℝ
  lag3 : ℝ
  expected : List String

/-- Carried state of the 7-day loop: `pm25_current`, `pm25_lag1d`,
`pm25_ma3d` (`src/app.py` lines 909-912). -/
structure SevenDayState where
  current : ℝ
  prevLag : ℝ
  ma3 : ℝ

/-- The per-step feature dictionary of the 7-day loop
(`src/app.py` lines 929-942), including all alias spellings of the 1-day lag
and the 3-day moving average; lookups of any other name miss (`.get` default
applies).  The hour is fixed at 12 (line 921). -/
noncomputable def featureValues7d (P : SevenDayInputs) (i : ℕ)
    (s : SevenDayState) : String → Option ℝ := fun name =>
  if name = "humidity" then some P.humidity
  else if name = "temperature" then some P.temperature
  else if name = "hour" then some 12
  else if name = "day" then some (P.dayOf i)
  else if name = "month" then some (P.monthOf i)
  else if name = "day_of_week" then some (((P.w0 : ℕ) + i) % 7)
  else if name = "pm_2_5" then some s.current
  else if name = "pm_2_5_lag1h" then some s.prevLag
  else if name = "pm25_lag1h" then some s.prevLag
  else if name = "pm_2_5_lag_1_h" then some s.prevLag
  else if name = "pm_2_5_ma3h" then some s.ma3
  else if name = "pm25_ma3h" then some s.ma3
  else none

/-- Per-step feature vector of the 7-day loop (`src/app.py` lines 944-960):
the expected schema when known, otherwise the hardcoded fallback column
order `humidity, pm_2_5, temperature, hour, day, month, day_of_week,
pm_2_5_lag1h, pm_2_5_ma3h`. -/
noncomputable def featuresAt (P : SevenDayInputs) (i : ℕ)
    (s : SevenDayState) : List ℝ :=
  if P.expected ≠ [] then
    buildFeatureVector P.expected (featureValues7d P i s)
  else
    [P.humidity, s.current, P.temperature, 12, (P.dayOf i : ℝ), (P.monthOf i : ℝ),
     ((((P.w0 : ℕ) + i) % 7 : ℕ) : ℝ), s.prevLag, s.ma3]

/-- One iteration of the 7-day loop after the base prediction is known
(`src/app.py` lines 967-991): apply the three factors, round, emit the
adjusted value, and update the carried state
(`pm25_lag1d = pm25_current; pm25_current = adjusted_prediction;
pm25_ma3d = np.mean([pm25_ma3d, pm25_lag1d, pm25_current])`). -/
noncomputable def stepWith (P : SevenDayInputs) (u : ℕ → ℝ) (i : ℕ)
    (s : SevenDayState) (basePrediction : ℝ) : ℝ × SevenDayState :=
  let dow := ((P.w0 : ℕ) + i) % 7
  let adjusted :=
    round2 (basePrediction * weekdayFactor dow * weatherFactor i * noiseFactor (u i))
  (adjusted, ⟨adjusted, s.current, mean3 s.ma3 s.current adjusted⟩)

/-- One full iteration of the 7-day loop with a pure predictor
(`model.predict(features)[0]`, line 963). -/
noncomputable def sevenDayStep (P : SevenDayInputs) (model : List ℝ → ℝ)
    (u : ℕ → ℝ) (i : ℕ) (s : SevenDayState) : ℝ × SevenDayState :=
  stepWith P u i s (model (featuresAt P i s))

/-- Carried state before step `i` of the 7-day loop.  The initial state
(`src/app.py` lines 903-912) is
`pm25_current = pm25_1d_ago`, `pm25_lag1d = pm25_2d_ago`,
`pm25_ma3d = np.mean([pm25_1d_ago, pm25_2d_ago, pm25_3d_ago])`. -/
noncomputable def stateAt (P : SevenDayInputs) (model : List ℝ → ℝ)
    (u : ℕ → ℝ) : ℕ → SevenDayState
  | 0 => ⟨P.lag1, P.lag2, mean3 P.lag1 P.lag2 P.lag3⟩
  | i + 1 => (sevenDayStep P model u i (stateAt P model u i)).2

/-- The adjusted prediction emitted at step `i` of the 7-day loop. -/
noncomputable def predAt (P : SevenDayInputs) (model : List ℝ → ℝ)
    (u : ℕ → ℝ) (i : ℕ) : ℝ :=
  (sevenDayStep P model u i (stateAt P model u i)).1

/-- The 7-element prediction list of one run
(`for day_offset in range(7)`, line 915). -/
noncomputable def sevenDayPredictions (P : SevenDayInputs)
    (model : List ℝ → ℝ) (u : ℕ → ℝ) : List ℝ :=
  (List.range 7).map (predAt P model u)

/-- One iteration of the 7-day loop with a fallible predictor: a raised
exception in `model.predict` surfaces as `Except.error`. -/
noncomputable def sevenDayStepE (P : SevenDayInputs)
    (modelF : List ℝ → Except String ℝ) (u : ℕ → ℝ) (i : ℕ)
    (s : SevenDayState) : Except String (ℝ × SevenDayState) :=
  (modelF (featuresAt P i s)).map (stepWith P u i s)

/-- The 7-day loop with a fallible predictor: `n` remaining iterations
starting at step index `i`.  There is no `try/except` anywhere in
`update_7day_prediction`, so an error aborts the whole run. -/
noncomputable def sevenDayLoopE (P : SevenDayInputs)
    (modelF : List ℝ → Except String ℝ) (u : ℕ → ℝ) :
    ℕ → ℕ → SevenDayState → Except String (List ℝ)
  | 0, _, _ => pure []
  | n + 1, i, s => do
    let r ← sevenDayStepE P modelF u i s
    let rest ← sevenDayLoopE P modelF u n (i + 1) r.2
    pure (r.1 :: rest)

/-- The full fallible 7-day run from the initial state. -/
noncomputable def sevenDayRunE (P : SevenDayInputs)
    (modelF : List ℝ → Except String ℝ) (u : ℕ → ℝ) :
    Except String (List ℝ) :=
  sevenDayLoopE P modelF u 7 0 ⟨P.lag1, P.lag2, mean3 P.lag1 P.lag2 P.lag3⟩

/-- `update_7day_prediction` callback (`src/app.py` lines 896-1161): guarded
by `n_clicks > 0`, otherwise an empty display (`none` here).  Unlike the
PM10 callback, the body has no `try/except`, so the returned value is
`Except.error` — the exception escapes the callback — whenever feature
assembly or the predictor raises. -/
noncomputable def update_7day_prediction (nClicks : ℕ) (P : SevenDayInputs)
    (modelF : List ℝ → Except String ℝ) (u : ℕ → ℝ) :
    Except String (Option (List ℝ)) :=
  if 0 < nClicks then (sevenDayRunE P modelF u).map some
  else pure none

/-- Concrete inputs used for closed-form instances: start date with weekday
Friday (`w0 = 4`), lags `(0, 0, 9)`, unknown schema. -/
noncomputable def sampleInputs : SevenDayInputs :=
  ⟨60, 25, ⟨4, by decide⟩, fun _ => 5, fun _ => 1, 0, 0, 9, []⟩

/-- The constant predictor returning `0`. -/
noncomputable def zeroModel : List ℝ → ℝ := fun _ => 0

/-- The neutral random stream, every draw equal to `0.5`. -/
noncomputable def halfStream : ℕ → ℝ := fun _ => 0.5

/-- C4 (amended): with all five lag inputs present, the rolling-statistics
calculator returns the arithmetic mean of the first four values, the
arithmetic mean of all five, and the `[0.4, 0.25, 0.2, 0.1, 0.05]`-weighted
average; on `[30, 28, 25, 22, 28]` the outputs are exactly
`26.25`, `26.6` and `27.6`. -/
theorem rollingStats_values :
    (∀ c l1 l3 l6 l24 : ℚ,
      update_pm10_averages (some c) (some l1) (some l3) (some l6) (some l24) =
        ((c + l1 + l3 + l6) / 4, (c + l1 + l3 + l6 + l24) / 5,
         0.4 * c + 0.25 * l1 + 0.2 * l3 + 0.1 * l6 + 0.05 * l24)) ∧
    update_pm10_averages (some 30) (some 28) (some 25) (some 22) (some 28) =
      (26.25, 26.6, 27.6) := by
  constructor
  · intro c l1 l3 l6 l24
    norm_num [update_pm10_averages, Prod.mk.injEq]
  · norm_num [update_pm10_averages, Prod.mk.injEq]

/-- C4 counterexample: the claimed `ewm12` output `27.5` on inputs
`[30, 28, 25, 22, 28]` is wrong; the weighted average
`0.4*30 + 0.25*28 + 0.2*25 + 0.1*22 + 0.05*28` equals `27.6`. -/
theorem rollingStats_ewm_not_27_5 :
    (update_pm10_averages (some 30) (some 28) (some 25) (some 22)
      (some 28)).2.2 ≠ 27.5 := by
  norm_num [update_pm10_averages]

/-- C9: if any of the five lag inputs is absent, all three rolling
statistics are reported as `0` (the calculator is a total function, so it
never raises); the 3-day moving-average display likewise reports `0` when
any of its three inputs is absent. -/
theorem missingInput_zero_outputs :
    (∀ current lag1 lag3 lag6 lag24 : Option ℚ,
      (current = none ∨ lag1 = none ∨ lag3 = none ∨ lag6 = none ∨
        lag24 = none) →
      update_pm10_averages current lag1 lag3 lag6 lag24 = (0, 0, 0)) ∧
    (∀ a b c : Option ℚ, (a = none ∨ b = none ∨ c = none) →
      update_moving_average a b c = 0) := by
  constructor
  · intro current lag1 lag3 lag6 lag24 h
    cases current <;> cases lag1 <;> cases lag3 <;> cases lag6 <;>
      cases lag24 <;> simp_all [update_pm10_averages]
  · intro a b c h
    cases a <;> cases b <;> cases c <;> simp_all [update_moving_average]

/-- C9 instance: one absent input forces all-zero outputs in both
calculators. -/
theorem missingInput_zero_outputs_instance :
    update_pm10_averages none (some 1) (some 2) (some 3) (some 4) =
      (0, 0, 0) ∧
    update_moving_average (some 1) none (some 3) = 0 :=
  ⟨missingInput_zero_outputs.1 none (some 1) (some 2) (some 3) (some 4)
      (Or.inl rfl),
   missingInput_zero_outputs.2 (some 1) none (some 3) (Or.inr (Or.inl rfl))⟩

/-- C7: for every non-empty schema, the feature-vector builder emits one
value per schema name in schema order — the resolved value when the name
resolves in the semantic value map, `0` otherwise; in particular
`["a", "b"]` with `{"a": 5}` yields `[5, 0]`. -/
theorem featureVector_resolution :
    ∀ (schema : List String) (values : String → Option ℚ), schema ≠ [] →
      ((buildFeatureVector schema values).length = schema.length ∧
        ∀ i, (buildFeatureVector schema values).get? i =
          (schema.get? i).map fun n => (values n).getD 0) ∧
      buildFeatureVector ["a", "b"]
        (fun n => if n = "a" then some 5 else none) = [5, 0] := by
  intro schema values _
  refine ⟨⟨List.length_map _ _, fun i => List.get?_map _ _ _⟩, ?_⟩
  simp [buildFeatureVector]

/-- C7 instance: the builder output has one entry per schema name. -/
theorem featureVector_resolution_instance :
    (buildFeatureVector ["a", "b"]
      (fun n => if n = "a" then some (5 : ℚ) else none)).length = 2 :=
  (featureVector_resolution ["a", "b"]
    (fun n => if n = "a" then some (5 : ℚ) else none) (by decide)).1.1

/-- C3: the diurnal synthesizer produces exactly 25 values for offsets
`h = 0..24`, each the linear base interpolation plus the band modifier of
the absolute hour `(startHour + h) % 24`; the band formulas are the four
documented peak/dip formulas and `0` on the neutral hours; and with
`currentValue = 30`, `startHour = 7`, the value at offset `0` strictly
exceeds `30` for every predicted value. -/
theorem diurnal_synthesizer_spec :
    (∀ (c p : ℚ) (s : ℕ), s < 24 →
      (diurnalCurve c p s).length = 25 ∧
      ∀ h, h ≤ 24 → (diurnalCurve c p s).get? h =
        some ((c + (p - c) * ((h : ℚ) / 24)) +
          bandModifier ((s + h) % 24) (c + (p - c) * ((h : ℚ) / 24)))) ∧
    (∀ (hr : ℕ) (b : ℚ),
      (6 ≤ hr ∧ hr ≤ 9 →
        bandModifier hr b = 0.15 * (1 - |(hr : ℚ) - 7.5| / 1.5) * b) ∧
      (13 ≤ hr ∧ hr ≤ 16 →
        bandModifier hr b = -(0.10 * (1 - |(hr : ℚ) - 14.5| / 1.5) * b)) ∧
      (18 ≤ hr ∧ hr ≤ 21 →
        bandModifier hr b = 0.12 * (1 - |(hr : ℚ) - 19.5| / 1.5) * b) ∧
      (hr ≤ 5 →
        bandModifier hr b = -(0.20 * (1 - |(hr : ℚ) - 3| / 3) * b)) ∧
      ((10 ≤ hr ∧ hr ≤ 12) ∨ hr = 17 ∨ (22 ≤ hr ∧ hr ≤ 23) →
        bandModifier hr b = 0)) ∧
    (∀ q : ℚ, 30 < diurnalValue 30 q 7 0) := by
  refine ⟨?_, ?_, ?_⟩
  · intro c p s _
    refine ⟨by simp [diurnalCurve], ?_⟩
    intro h hh
    have h25 : h < 25 := by omega
    have hget : (diurnalCurve c p s).get? h = some (diurnalValue c p s h) := by
      simp only [diurnalCurve]
      rw [List.get?_map, List.get?_range h25, Option.map_some']
    rw [hget]
    simp only [diurnalValue]
  · intro hr b
    refine ⟨fun hc => ?_, fun hc => ?_, fun hc => ?_, fun hc => ?_,
      fun hc => ?_⟩
    · unfold bandModifier
      rw [if_pos hc]; ring
    · unfold bandModifier
      rw [if_neg (by omega), if_pos hc]; ring
    · unfold bandModifier
      rw [if_neg (by omega), if_neg (by omega), if_pos hc]; ring
    · unfold bandModifier
      rw [if_neg (by omega), if_neg (by omega), if_neg (by omega),
        if_pos hc]
      ring
    · unfold bandModifier
      rw [if_neg (by omega), if_neg (by omega), if_neg (by omega),
        if_neg (by omega)]
  · intro q
    have h2 : bandModifier 7 30 = 3 := by
      norm_num [bandModifier, abs_of_nonneg]
    have h0 : diurnalValue 30 q 7 0 = 30 + bandModifier 7 30 := by
      norm_num [diurnalValue]
    rw [h0, h2]
    norm_num

/-- C3 instance: the curve has 25 points. -/
theorem diurnal_synthesizer_instance : (diurnalCurve 30 40 7).length = 25 :=
  (diurnal_synthesizer_spec.1 30 40 7 (by decide)).1

/-- C10 counterexample: starting at hour 6 — which is not one of the
neutral hours 10–12, 17, 22–23 — the curve still ends exactly at the raw
24-hour prediction, because the morning-peak triangular weight vanishes at
its band edge: `diurnalValue 0 100 6 24 = 100`. -/
theorem diurnal_endpoint_neutral_only_false :
    diurnalValue 0 100 6 24 = 100 ∧
    ¬((10 ≤ (6 : ℕ) ∧ (6 : ℕ) ≤ 12) ∨ (6 : ℕ) = 17 ∨
      (22 ≤ (6 : ℕ) ∧ (6 : ℕ) ≤ 23)) := by
  constructor
  · have h2 : bandModifier 6 (100 : ℚ) = 0 := by
      norm_num [bandModifier, abs_of_nonneg]
    have h0 : diurnalValue 0 100 6 24 = 100 + bandModifier 6 100 := by
      norm_num [diurnalValue]
    rw [h0, h2]
    norm_num
  · decide

/-- C10 (amended): for every `startHour` in `0..23` the last curve point is
`predictedValue + band(startHour, predictedValue)` — offsets 0 and 24
receive the modifier of the same absolute hour — and the curve ends exactly
at the raw 24h prediction whenever that modifier vanishes: on the neutral
hours 10–12, 17, 22–23, but also at the band-edge hours 0, 6, 9, 13, 16,
18, 21 (where the triangular weight is `0`) and whenever the predicted
value is `0`. -/
theorem diurnal_endpoint_band :
    ∀ (c p : ℚ) (s : ℕ), s < 24 →
      diurnalValue c p s 24 = p + bandModifier s p ∧
      ((10 ≤ s ∧ s ≤ 12) ∨ s = 17 ∨ (22 ≤ s ∧ s ≤ 23) ∨
        s = 0 ∨ s = 6 ∨ s = 9 ∨ s = 13 ∨ s = 16 ∨ s = 18 ∨ s = 21 →
        diurnalValue c p s 24 = p) ∧
      (p = 0 → diurnalValue c p s 24 = p) := by
  intro c p s hs
  have hmod : (s + 24) % 24 = s := by omega
  have hb : c + (p - c) * (((24 : ℕ) : ℚ) / 24) = p := by push_cast; ring
  have h1 : diurnalValue c p s 24 = p + bandModifier s p := by
    simp only [diurnalValue, hmod, hb]
  have hzero : bandModifier s 0 = 0 := by
    simp only [bandModifier]
    split_ifs <;> ring
  refine ⟨h1, ?_, ?_⟩
  · intro hc
    rw [h1]
    have hband : bandModifier s p = 0 := by
      rcases hc with ⟨ha, hb2⟩ | rfl | ⟨ha, hb2⟩ | rfl | rfl | rfl | rfl |
        rfl | rfl | rfl
      · interval_cases s <;> norm_num [bandModifier]
      · norm_num [bandModifier]
      · interval_cases s <;> norm_num [bandModifier]
      all_goals norm_num [bandModifier, abs_of_nonneg]
    rw [hband, add_zero]
  · intro hp
    rw [h1, hp, hzero]
    norm_num

/-- C10 instance: at the neutral start hour 12 the last point is the raw
prediction plus a (zero) band modifier. -/
theorem diurnal_endpoint_band_instance :
    diurnalValue 1 2 12 24 = 2 + bandModifier 12 2 :=
  (diurnal_endpoint_band 1 2 12 (by decide)).1

/-- C1: the 7-day loop state is initialized as
`current = lag1, previousLag = lag2, movingAverage = mean(lag1, lag2, lag3)`
and after each of the 7 steps it satisfies
`previousLag ← current; current ← adjustedValue;
movingAverage ← mean(movingAverage, previousLag, current)` with the mean
taken over the just-assigned `previousLag` and `current`; moreover on
concrete inputs this recursive 3-term average differs from the 3-period
sliding-window mean of the three most recent series values. -/
theorem sevenDay_state_recurrence :
    (∀ (P : SevenDayInputs) (model : List ℝ → ℝ) (u : ℕ → ℝ),
      stateAt P model u 0 = ⟨P.lag1, P.lag2, mean3 P.lag1 P.lag2 P.lag3⟩) ∧
    (∀ (P : SevenDayInputs) (model : List ℝ → ℝ) (u : ℕ → ℝ) (i : ℕ),
      i < 7 →
      (stateAt P model u (i + 1)).prevLag = (stateAt P model u i).current ∧
      (stateAt P model u (i + 1)).current = predAt P model u i ∧
      (stateAt P model u (i + 1)).ma3 =
        mean3 (stateAt P model u i).ma3 (stateAt P model u (i + 1)).prevLag
          (stateAt P model u (i + 1)).current) ∧
    (stateAt sampleInputs zeroModel halfStream 1).ma3 ≠
      mean3 sampleInputs.lag2 sampleInputs.lag1
        (predAt sampleInputs zeroModel halfStream 0) := by
  refine ⟨fun P model u => rfl, fun P model u i _ => ⟨rfl, rfl, rfl⟩, ?_⟩
  have hadj : predAt sampleInputs zeroModel halfStream 0 = 0 := by
    simp [predAt, sevenDayStep, stepWith, zeroModel, round2]
  have hma : (stateAt sampleInputs zeroModel halfStream 1).ma3 =
      mean3 (mean3 0 0 9) 0 0 := by
    show (sevenDayStep sampleInputs zeroModel halfStream 0
      (stateAt sampleInputs zeroModel halfStream 0)).2.ma3 = mean3 (mean3 0 0 9) 0 0
    simp [sevenDayStep, stepWith, stateAt, sampleInputs, zeroModel, round2]
  rw [hma, hadj]
  show mean3 (mean3 0 0 9) 0 0 ≠ mean3 (0 : ℝ) 0 0
  norm_num [mean3]

/-- C1 instance: the recurrence at step 0 of a concrete run. -/
theorem sevenDay_state_recurrence_instance :
    (stateAt sampleInputs zeroModel halfStream 1).prevLag =
      (stateAt sampleInputs zeroModel halfStream 0).current ∧
    (stateAt sampleInputs zeroModel halfStream 1).current =
      predAt sampleInputs zeroModel halfStream 0 ∧
    (stateAt sampleInputs zeroModel halfStream 1).ma3 =
      mean3 (stateAt sampleInputs zeroModel halfStream 0).ma3
        (stateAt sampleInputs zeroModel halfStream 1).prevLag
        (stateAt sampleInputs zeroModel halfStream 1).current :=
  sevenDay_state_recurrence.2.1 sampleInputs zeroModel halfStream 0 (by decide)

/-- C2: every step of the 7-day loop emits
`round2(baseValue * weekdayFactor * weatherCycleFactor * noiseFactor)`,
where the weekday factor of the step's calendar date (weekday
`(w0 + i) % 7`, Python convention Monday = 0) is exactly `1` on
Monday-Friday, `0.9` on Saturday and `0.85` on Sunday, independently of the
base value. -/
theorem sevenDay_adjusted_value :
    ∀ (P : SevenDayInputs) (model : List ℝ → ℝ) (u : ℕ → ℝ) (i : ℕ),
      i < 7 →
      predAt P model u i =
        round2 (model (featuresAt P i (stateAt P model u i)) *
          weekdayFactor (((P.w0 : ℕ) + i) % 7) * weatherFactor i *
          noiseFactor (u i)) ∧
      (((P.w0 : ℕ) + i) % 7 < 5 →
        weekdayFactor (((P.w0 : ℕ) + i) % 7) = 1) ∧
      (((P.w0 : ℕ) + i) % 7 = 5 →
        weekdayFactor (((P.w0 : ℕ) + i) % 7) = 0.9) ∧
      (((P.w0 : ℕ) + i) % 7 = 6 →
        weekdayFactor (((P.w0 : ℕ) + i) % 7) = 0.85) := by
  intro P model u i _
  refine ⟨rfl, fun h => ?_, fun h => ?_, fun h => ?_⟩
  · unfold weekdayFactor
    rw [if_neg (by omega), if_neg (by omega)]
  · unfold weekdayFactor
    rw [if_pos h]
  · unfold weekdayFactor
    rw [if_neg (by omega), if_pos h]

/-- C2 instance: with start weekday Friday (`w0 = 4`), step 1 falls on
Saturday and gets factor `0.9`. -/
theorem sevenDay_adjusted_value_instance :
    weekdayFactor (((sampleInputs.w0 : ℕ) + 1) % 7) = 0.9 :=
  (sevenDay_adjusted_value sampleInputs zeroModel halfStream 1
    (by decide)).2.2.1 (by decide)

/-- C6: with every random draw fixed at `0.5` the noise factor is exactly
`1`, and two 7-day runs on identical inputs (same start date, humidity,
temperature, lag series and predictor) produce identical 7-element output
sequences. -/
theorem sevenDay_deterministic_with_fixed_draw :
    ∀ (P : SevenDayInputs) (model : List ℝ → ℝ) (u1 u2 : ℕ → ℝ),
      (∀ i, u1 i = 0.5) → (∀ i, u2 i = 0.5) →
      noiseFactor 0.5 = 1 ∧
      sevenDayPredictions P model u1 = sevenDayPredictions P model u2 := by
  intro P model u1 u2 h1 h2
  have hu : u1 = u2 := funext fun i => (h1 i).trans (h2 i).symm
  exact ⟨by norm_num [noiseFactor], by rw [hu]⟩

/-- C6 instance: two runs with the constant `0.5` stream agree. -/
theorem sevenDay_deterministic_instance :
    noiseFactor 0.5 = 1 ∧
    sevenDayPredictions sampleInputs zeroModel halfStream =
      sevenDayPredictions sampleInputs zeroModel halfStream :=
  sevenDay_deterministic_with_fixed_draw sampleInputs zeroModel halfStream
    halfStream (fun _ => rfl) (fun _ => rfl)

/-- C8: the weather cycle factor at step `i` equals
`1 + 0.08 * sin(2π * (i mod 3) / 3)`, and at step indices 0, 3 and 6 it is
exactly `1`. -/
theorem weatherFactor_cycle :
    ∀ i : ℕ, i < 7 →
      weatherFactor i =
        1 + 0.08 * Real.sin (2 * Real.pi * ((i % 3 : ℕ) : ℝ) / 3) ∧
      (i = 0 ∨ i = 3 ∨ i = 6 → weatherFactor i = 1) := by
  intro i _
  constructor
  · unfold weatherFactor
    rw [mul_div_assoc]
  · rintro (rfl | rfl | rfl) <;> norm_num [weatherFactor]

/-- C8 instance: phase 0 at step 0 gives factor exactly `1`. -/
theorem weatherFactor_cycle_instance : weatherFactor 0 = 1 :=
  (weatherFactor_cycle 0 (by decide)).2 (Or.inl rfl)

/-- C5: the error-handling policy is not uniform across the two tracks.
With a predictor that raises, the PM10 callback catches the exception and
returns the user-visible "Prediction Error" display, while the 7-day
callback has no handler at all — the exception escapes the callback
(`Except.error` here) and no error result is shown. -/
theorem error_policy_not_uniform :
    update_7day_prediction 1 sampleInputs (fun _ => Except.error "boom")
      halfStream = Except.error "boom" ∧
    update_pm10_prediction 1 true (fun _ => Except.error "boom") ["a"]
      (fun _ => none) [] 30 7 =
      Pm10Outcome.predictionError
        "An error occurred while making the prediction: boom" := by
  exact ⟨rfl, rfl⟩
